import Mathlib

/-!
Verification of the `pyrus` repository's Option/Result core
(`src/rutils/option.py` and `src/oxidize/types_.py`).

The Python code defines two closed two-variant families:
`Some(value)` / `Nothing()` (frozen dataclasses with structural equality)
implementing the `OptionProtocol` combinators, and `Ok` / `Err` (plain
classes exposing only the `is_ok` / `is_err` predicates, with no payload
and no `__eq__`). The `ok_or` / `ok_or_else` methods of both Option
variants have `...` (Ellipsis) bodies: calling them returns Python `None`.

We embed the code in three layers:
* `MOption α` — the generic Option model: combinators that never inspect
  the payload's runtime type, parametric in the payload exactly as the
  Python generics are;
* `PyVal` / `DOption` — a dynamic model for `flatten`, whose body performs
  an `isinstance(t, OptionProtocol)` test on the payload;
* `Store`-passing versions of every combinator, for the frame property
  (no operation mutates any pre-existing object; the only effect any code
  can have is allocating new objects — `frozen=True` forbids field writes).

Raising `UnwrapError(msg)` is modelled as `Except.error msg`; a Python
method that returns `None` is modelled with `PyRet.pyNone`.
-/

universe u v

/-- Python `None`, as returned by a method whose body is the `...` stub. -/
inductive PyRet (ρ : Type u) where
  | value : ρ → PyRet ρ
  | pyNone : PyRet ρ
deriving DecidableEq, Repr

/-- The two variants of `rutils.option.Result`: `Ok` and `Err`. -/
inductive RVariant where
  | ok : RVariant
  | err : RVariant
deriving DecidableEq, Repr

/-- An instance of `rutils.option.Ok` or `rutils.option.Err`. Neither class
declares any field, `__init__`, or `__eq__`, so an instance is nothing but
its class (the variant) and its object identity. -/
structure RInst where
  variant : RVariant
  objId : Nat
deriving DecidableEq, Repr

/-- Source: `Ok.is_ok` returns `True`; `Err.is_ok` returns `False` (dispatch on the
class of the receiver). -/
def RInst.is_ok (r : RInst) : Bool :=
  match r.variant with
  | .ok => true
  | .err => false

/-- Source: `Ok.is_err` returns `False`; `Err.is_err` returns `True`. -/
def RInst.is_err (r : RInst) : Bool :=
  match r.variant with
  | .ok => false
  | .err => true

/-- Python equality on `Ok`/`Err` instances: neither class defines
`__eq__`, so `==` falls back to `object.__eq__`, which is identity. -/
def pyEqR (a b : RInst) : Bool := a.objId == b.objId

/-- The generic Option model: `Some(value)` and `Nothing()`
(`Option = Nothing[T] | Some[T]` in the source). -/
inductive MOption (α : Type u) where
  | some' : α → MOption α
  | nothing' : MOption α
deriving DecidableEq, Repr

namespace MOption

variable {α : Type u} {β : Type v}

/-- Source: `Some.is_some` returns `True`; `Nothing.is_some` returns `False`. -/
def is_some : MOption α → Bool
  | .some' _ => true
  | .nothing' => false

/-- Source: `Some.is_nothing` returns `False`; `Nothing.is_nothing` returns `True`. -/
def is_nothing : MOption α → Bool
  | .some' _ => false
  | .nothing' => true

/-- Source: `Some.expect` returns `self.value`; `Nothing.expect` raises
`UnwrapError(msg)`. -/
def expect : MOption α → String → Except String α
  | .some' v, _ => .ok v
  | .nothing', msg => .error msg

/-- The fixed message of `OptionProtocol.unwrap`. -/
def unwrapMsg : String := "called `Option.unwrap()` on a `Nothing` value"

/-- Source: `OptionProtocol.unwrap` is defined once on the protocol as
`self.expect("called ...")`. -/
def unwrap (o : MOption α) : Except String α := o.expect unwrapMsg

/-- Source: `Some.and_then` returns `f(self.value)`; `Nothing.and_then` returns
`Nothing()`. -/
def and_then (o : MOption α) (f : α → MOption β) : MOption β :=
  match o with
  | .some' v => f v
  | .nothing' => .nothing'

/-- Source: `Some.map` returns `Some(f(self.value))`; `Nothing.map` returns
`Nothing()`. -/
def map (o : MOption α) (f : α → β) : MOption β :=
  match o with
  | .some' v => .some' (f v)
  | .nothing' => .nothing'

/-- Source: `Some.map_or` returns `f(self.value)`; `Nothing.map_or` returns
`default`. -/
def map_or (o : MOption α) (d : β) (f : α → β) : β :=
  match o with
  | .some' v => f v
  | .nothing' => d

/-- Source: `Some.map_or_else` returns `f(self.value)`; `Nothing.map_or_else`
returns `default()`. -/
def map_or_else (o : MOption α) (d : Unit → β) (f : α → β) : β :=
  match o with
  | .some' v => f v
  | .nothing' => d ()

/-- Source: `Some.filter` returns `self` if `predicate(self.value)` else
`Nothing()`; `Nothing.filter` returns `self`. -/
def filter (o : MOption α) (p : α → Bool) : MOption α :=
  match o with
  | .some' v => if p v then o else .nothing'
  | .nothing' => o

/-- Source: `Some.unwrap_or` returns `self.value`; `Nothing.unwrap_or` returns
`default`. -/
def unwrap_or (o : MOption α) (d : α) : α :=
  match o with
  | .some' v => v
  | .nothing' => d

/-- Source: `Some.unwrap_or_else` returns `self.value`; `Nothing.unwrap_or_else`
returns `f()`. -/
def unwrap_or_else (o : MOption α) (f : Unit → α) : α :=
  match o with
  | .some' v => v
  | .nothing' => f ()

/-- Source: `Some.or_else` returns `self`; `Nothing.or_else` returns `f()`. -/
def or_else (o : MOption α) (f : Unit → MOption α) : MOption α :=
  match o with
  | .some' _ => o
  | .nothing' => f ()

/-- Source: `Some.zip` is `Some((self.unwrap(), other.unwrap())) if other.is_some
else Nothing()`; `Nothing.zip` returns `Nothing()`. The body of the `Some`
case invokes `unwrap`, so it lives in `Except` like `unwrap` does. -/
def zip (o : MOption α) (other : MOption α) :
    Except String (MOption (α × α)) :=
  match o with
  | .some' v =>
      if other.is_some then do
        let a ← (MOption.some' v).unwrap
        let b ← other.unwrap
        pure (MOption.some' (a, b))
      else pure .nothing'
  | .nothing' => pure .nothing'

/-- Source: `Some.__contains__` returns `item == self.value`;
`Nothing.__contains__` returns `False`. -/
def contains [BEq α] (o : MOption α) (item : α) : Bool :=
  match o with
  | .some' v => item == v
  | .nothing' => false

/-- Source: `Some.ok_or` and `Nothing.ok_or` both have the body `...` (a bare
Ellipsis expression), so the call evaluates `...` and returns `None`. -/
def ok_or {ε : Type v} (o : MOption α) (e : ε) : PyRet RInst :=
  match o with
  | .some' _ => .pyNone
  | .nothing' => .pyNone

/-- Source: `Some.ok_or_else` and `Nothing.ok_or_else` both have the body `...`:
the call returns `None` and never invokes `f`. -/
def ok_or_else {ε : Type v} (o : MOption α) (f : Unit → ε) : PyRet RInst :=
  match o with
  | .some' _ => .pyNone
  | .nothing' => .pyNone

/-- Python `==` on Option instances: `Some` and `Nothing` are
`@dataclass(eq=True)`, so two instances are equal iff they are of the same
class and their fields compare equal (`Some` has the single field `value`,
`Nothing` has none); instances of different classes are unequal. -/
def eqb [BEq α] : MOption α → MOption α → Bool
  | .some' a, .some' b => a == b
  | .nothing', .nothing' => true
  | _, _ => false

end MOption

mutual
/-- A universe of Python payload values, enough to express that a payload
may or may not itself be an Option instance. -/
inductive PyVal where
  | int : Int → PyVal
  | str : String → PyVal
  | pair : PyVal → PyVal → PyVal
  | opt : DOption → PyVal
deriving DecidableEq, Repr

/-- The dynamic Option model used for `flatten`, whose `Some` body tests
`isinstance(t, OptionProtocol)` on the payload. -/
inductive DOption where
  | someO : PyVal → DOption
  | nothingO : DOption
deriving DecidableEq, Repr
end

namespace DOption

/-- Source: `expect` on the dynamic model, same code as `MOption.expect`. -/
def expectD : DOption → String → Except String PyVal
  | .someO v, _ => .ok v
  | .nothingO, msg => .error msg

/-- Source: `unwrap` on the dynamic model: `self.expect("called ...")`. -/
def unwrapD (o : DOption) : Except String PyVal :=
  o.expectD MOption.unwrapMsg

/-- Source: `Some.flatten`: `t = self.unwrap()`; if `isinstance(t, OptionProtocol)`
return `cast("Option", t)`, else return `self`. `Nothing.flatten` returns
`self`. The `Some` body invokes `unwrap`, so it lives in `Except`. -/
def flatten (o : DOption) : Except String DOption :=
  match o with
  | .someO v => do
      let t ← DOption.unwrapD (.someO v)
      match t with
      | .opt u => pure u
      | _ => pure (DOption.someO v)
  | .nothingO => pure .nothingO

end DOption

/-- An instance of `oxidize.types_.Err`. The class body contains only the
bare annotation `err: E` (which creates no instance attribute) and the two
properties; an instance carries nothing the properties read. -/
structure OErr (T : Type u) (E : Type v) where
  mk' ::

/-- Source: `oxidize.types_.Err.is_ok` returns `False`. -/
def OErr.is_ok {T : Type u} {E : Type v} (e : OErr T E) : Bool := false

/-- Source: `oxidize.types_.Err.is_err` returns `not self.is_ok`. -/
def OErr.is_err {T : Type u} {E : Type v} (e : OErr T E) : Bool := !e.is_ok

/-!
The store model. Python objects live in a heap; `@dataclass(frozen=True)`
makes `Some.__setattr__` / `Nothing.__setattr__` raise, so no code — the
combinators and caller-supplied functions alike — can write a field of an
existing Option instance. The only possible effect on the heap of Option
objects is therefore allocation, which we model as appending to a list;
an object id is an index into that list. Caller-supplied functions are
store transformers assumed (as a hypothesis) to only extend the store.
-/

/-- A payload slot of a `Some` object: a plain value, a reference to
another Option object in the store, or a tuple (as built by `zip`). -/
inductive Payload (α : Type u) where
  | raw : α → Payload α
  | optRef : Nat → Payload α
  | tup : Payload α → Payload α → Payload α
deriving DecidableEq, Repr

/-- A heap cell: a `Some` instance with its `value` field, or a `Nothing`
instance (no fields). -/
inductive OptObj (α : Type u) where
  | someObj : Payload α → OptObj α
  | nothingObj : OptObj α
deriving DecidableEq, Repr

/-- The heap of Option objects; an object id is an index into the list. -/
abbrev Store (α : Type u) := List (OptObj α)

/-- Constructing a new instance (`Some(...)` or `Nothing()`) appends a
fresh cell and returns its id. -/
def alloc {α : Type u} (σ : Store α) (o : OptObj α) : Store α × Nat :=
  (σ ++ [o], σ.length)

/-- One store extends another when it appends cells to it: the effect
shape of any code under `frozen=True`. -/
def StoreExtends {α : Type u} (σ σ' : Store α) : Prop :=
  ∃ τ, σ' = σ ++ τ

namespace PyStore

variable {α : Type u}

/-- Caller-supplied `f : T → U` (for `map`, `map_or`, `map_or_else`). -/
abbrev PFun (α : Type u) := Store α → Payload α → Store α × Payload α

/-- Caller-supplied `f : T → Option[U]` (for `and_then`); returns an id. -/
abbrev OFun (α : Type u) := Store α → Payload α → Store α × Nat

/-- Caller-supplied `f : () → Option[T]` (for `or_else`); returns an id. -/
abbrev TFun (α : Type u) := Store α → Store α × Nat

/-- Caller-supplied `f : () → T` / `() → U` (for `unwrap_or_else`,
`map_or_else`, `ok_or_else`). -/
abbrev VFun (α : Type u) := Store α → Store α × Payload α

/-- Caller-supplied predicate `T → bool` (for `filter`). -/
abbrev BFun (α : Type u) := Store α → Payload α → Store α × Bool

/-- Store semantics of `and_then`: `Some` returns `f(self.value)`,
`Nothing` constructs `Nothing()`. -/
def and_thenS (σ : Store α) (self : Nat) (g : OFun α) : Store α × Nat :=
  match σ[self]? with
  | some (.someObj v) => g σ v
  | some .nothingObj => alloc σ .nothingObj
  | none => (σ, self)

/-- Store semantics of `expect`: reads `self.value` or raises; no
construction, no write. -/
def expectS (σ : Store α) (self : Nat) (msg : String) :
    Store α × Except String (Payload α) :=
  match σ[self]? with
  | some (.someObj v) => (σ, .ok v)
  | some .nothingObj => (σ, .error msg)
  | none => (σ, .error msg)

/-- Store semantics of `unwrap`: `self.expect("called ...")`. -/
def unwrapS (σ : Store α) (self : Nat) :
    Store α × Except String (Payload α) :=
  expectS σ self MOption.unwrapMsg

/-- Store semantics of `filter`: `Some` returns `self` when the predicate
holds, else constructs `Nothing()`; `Nothing` returns `self`. -/
def filterS (σ : Store α) (self : Nat) (p : BFun α) : Store α × Nat :=
  match σ[self]? with
  | some (.someObj v) =>
      match p σ v with
      | (σ₁, true) => (σ₁, self)
      | (σ₁, false) => alloc σ₁ .nothingObj
  | some .nothingObj => (σ, self)
  | none => (σ, self)

/-- Store semantics of `flatten`: `Some` whose `value` is itself an Option
object returns that object; otherwise `self`; `Nothing` returns `self`. -/
def flattenS (σ : Store α) (self : Nat) : Store α × Nat :=
  match σ[self]? with
  | some (.someObj (.optRef t)) => (σ, t)
  | some (.someObj _) => (σ, self)
  | some .nothingObj => (σ, self)
  | none => (σ, self)

/-- Store semantics of `map`: `Some` constructs `Some(f(self.value))`,
`Nothing` constructs `Nothing()`. -/
def mapS (σ : Store α) (self : Nat) (f : PFun α) : Store α × Nat :=
  match σ[self]? with
  | some (.someObj v) =>
      match f σ v with
      | (σ₁, r) => alloc σ₁ (.someObj r)
  | some .nothingObj => alloc σ .nothingObj
  | none => (σ, self)

/-- Store semantics of `map_or`: `Some` returns `f(self.value)`,
`Nothing` returns the eagerly supplied `default`. -/
def map_orS (σ : Store α) (self : Nat) (d : Payload α) (f : PFun α) :
    Store α × Payload α :=
  match σ[self]? with
  | some (.someObj v) => f σ v
  | some .nothingObj => (σ, d)
  | none => (σ, d)

/-- Store semantics of `map_or_else`: `Some` returns `f(self.value)`,
`Nothing` returns `default()`. -/
def map_or_elseS (σ : Store α) (self : Nat) (d : VFun α) (f : PFun α) :
    Store α × Payload α :=
  match σ[self]? with
  | some (.someObj v) => f σ v
  | some .nothingObj => d σ
  | none => d σ

/-- Store semantics of `ok_or`: both bodies are the `...` stub — no read,
no construction, returns `None`. -/
def ok_orS (σ : Store α) (self : Nat) (e : Payload α) :
    Store α × PyRet Nat :=
  (σ, .pyNone)

/-- Store semantics of `ok_or_else`: both bodies are the `...` stub. -/
def ok_or_elseS (σ : Store α) (self : Nat) (f : VFun α) :
    Store α × PyRet Nat :=
  (σ, .pyNone)

/-- Store semantics of `unwrap_or`: reads `self.value` or returns the
supplied default; no construction. -/
def unwrap_orS (σ : Store α) (self : Nat) (d : Payload α) :
    Store α × Payload α :=
  match σ[self]? with
  | some (.someObj v) => (σ, v)
  | some .nothingObj => (σ, d)
  | none => (σ, d)

/-- Store semantics of `unwrap_or_else`: `Some` reads `self.value`,
`Nothing` returns `f()`. -/
def unwrap_or_elseS (σ : Store α) (self : Nat) (f : VFun α) :
    Store α × Payload α :=
  match σ[self]? with
  | some (.someObj v) => (σ, v)
  | some .nothingObj => f σ
  | none => f σ

/-- Store semantics of `or_else`: `Some` returns `self`, `Nothing`
returns `f()`. -/
def or_elseS (σ : Store α) (self : Nat) (t : TFun α) : Store α × Nat :=
  match σ[self]? with
  | some (.someObj _) => (σ, self)
  | some .nothingObj => t σ
  | none => (σ, self)

/-- Store semantics of `zip`: `Some` with a `Some` other constructs
`Some((v, w))`, otherwise constructs `Nothing()`; `Nothing` constructs
`Nothing()`. -/
def zipS (σ : Store α) (self other : Nat) : Store α × Nat :=
  match σ[self]? with
  | some (.someObj v) =>
      match σ[other]? with
      | some (.someObj w) => alloc σ (.someObj (.tup v w))
      | _ => alloc σ .nothingObj
  | some .nothingObj => alloc σ .nothingObj
  | none => (σ, self)

/-- Store semantics of `__contains__`: reads `self.value` and compares it
with the payload type's own equality; no construction. -/
def containsS (σ : Store α) (self : Nat)
    (eqf : Payload α → Payload α → Bool) (item : Payload α) :
    Store α × Bool :=
  match σ[self]? with
  | some (.someObj v) => (σ, eqf item v)
  | some .nothingObj => (σ, false)
  | none => (σ, false)

/-- Store semantics of the `is_some` property: reads the class tag only. -/
def is_someS (σ : Store α) (self : Nat) : Store α × Bool :=
  match σ[self]? with
  | some (.someObj _) => (σ, true)
  | some .nothingObj => (σ, false)
  | none => (σ, false)

/-- Store semantics of the `is_nothing` property. -/
def is_nothingS (σ : Store α) (self : Nat) : Store α × Bool :=
  match σ[self]? with
  | some (.someObj _) => (σ, false)
  | some .nothingObj => (σ, true)
  | none => (σ, true)

end PyStore

namespace PyStore

variable {α : Type u}

theorem extends_refl (σ : Store α) : StoreExtends σ σ :=
  ⟨[], (List.append_nil σ).symm⟩

theorem extends_alloc (σ : Store α) (o : OptObj α) :
    StoreExtends σ (alloc σ o).1 :=
  ⟨[o], rfl⟩

theorem extends_trans {σ₁ σ₂ σ₃ : Store α}
    (h₁ : StoreExtends σ₁ σ₂) (h₂ : StoreExtends σ₂ σ₃) :
    StoreExtends σ₁ σ₃ := by
  obtain ⟨τ₁, rfl⟩ := h₁
  obtain ⟨τ₂, rfl⟩ := h₂
  exact ⟨τ₁ ++ τ₂, List.append_assoc σ₁ τ₁ τ₂⟩

theorem extends_get {σ σ' : Store α} {i : Nat}
    (h : StoreExtends σ σ') (hi : i < σ.length) : σ'[i]? = σ[i]? := by
  obtain ⟨τ, rfl⟩ := h
  exact List.getElem?_append_left hi

end PyStore

namespace PyStore

variable {α : Type u}

theorem and_thenS_extends (σ : Store α) (self : Nat) (g : OFun α)
    (hg : ∀ σ' v, StoreExtends σ' (g σ' v).1) :
    StoreExtends σ (and_thenS σ self g).1 := by
  unfold and_thenS
  split
  · exact hg σ _
  · exact extends_alloc σ _
  · exact extends_refl σ

theorem expectS_extends (σ : Store α) (self : Nat) (msg : String) :
    StoreExtends σ (expectS σ self msg).1 := by
  unfold expectS
  split <;> exact extends_refl σ

theorem unwrapS_extends (σ : Store α) (self : Nat) :
    StoreExtends σ (unwrapS σ self).1 :=
  expectS_extends σ self MOption.unwrapMsg

theorem filterS_extends (σ : Store α) (self : Nat) (p : BFun α)
    (hp : ∀ σ' v, StoreExtends σ' (p σ' v).1) :
    StoreExtends σ (filterS σ self p).1 := by
  unfold filterS
  split
  · next v hv =>
      split
      · next σ₁ heq =>
          have h := hp σ v
          rw [heq] at h
          exact h
      · next σ₁ heq =>
          have h := hp σ v
          rw [heq] at h
          exact extends_trans h (extends_alloc σ₁ _)
  · exact extends_refl σ
  · exact extends_refl σ

theorem flattenS_extends (σ : Store α) (self : Nat) :
    StoreExtends σ (flattenS σ self).1 := by
  unfold flattenS
  split <;> exact extends_refl σ

theorem mapS_extends (σ : Store α) (self : Nat) (f : PFun α)
    (hf : ∀ σ' v, StoreExtends σ' (f σ' v).1) :
    StoreExtends σ (mapS σ self f).1 := by
  unfold mapS
  split
  · next v hv =>
      split
      · next σ₁ r heq =>
          have h := hf σ v
          rw [heq] at h
          exact extends_trans h (extends_alloc σ₁ _)
  · exact extends_alloc σ _
  · exact extends_refl σ

theorem map_orS_extends (σ : Store α) (self : Nat) (d : Payload α)
    (f : PFun α) (hf : ∀ σ' v, StoreExtends σ' (f σ' v).1) :
    StoreExtends σ (map_orS σ self d f).1 := by
  unfold map_orS
  split
  · exact hf σ _
  · exact extends_refl σ
  · exact extends_refl σ

theorem map_or_elseS_extends (σ : Store α) (self : Nat) (d : VFun α)
    (f : PFun α) (hf : ∀ σ' v, StoreExtends σ' (f σ' v).1)
    (hd : ∀ σ', StoreExtends σ' (d σ').1) :
    StoreExtends σ (map_or_elseS σ self d f).1 := by
  unfold map_or_elseS
  split
  · exact hf σ _
  · exact hd σ
  · exact hd σ

theorem ok_orS_extends (σ : Store α) (self : Nat) (e : Payload α) :
    StoreExtends σ (ok_orS σ self e).1 :=
  extends_refl σ

theorem ok_or_elseS_extends (σ : Store α) (self : Nat) (f : VFun α) :
    StoreExtends σ (ok_or_elseS σ self f).1 :=
  extends_refl σ

theorem unwrap_orS_extends (σ : Store α) (self : Nat) (d : Payload α) :
    StoreExtends σ (unwrap_orS σ self d).1 := by
  unfold unwrap_orS
  split <;> exact extends_refl σ

theorem unwrap_or_elseS_extends (σ : Store α) (self : Nat) (f : VFun α)
    (hf : ∀ σ', StoreExtends σ' (f σ').1) :
    StoreExtends σ (unwrap_or_elseS σ self f).1 := by
  unfold unwrap_or_elseS
  split
  · exact extends_refl σ
  · exact hf σ
  · exact hf σ

theorem or_elseS_extends (σ : Store α) (self : Nat) (t : TFun α)
    (ht : ∀ σ', StoreExtends σ' (t σ').1) :
    StoreExtends σ (or_elseS σ self t).1 := by
  unfold or_elseS
  split
  · exact extends_refl σ
  · exact ht σ
  · exact extends_refl σ

theorem zipS_extends (σ : Store α) (self other : Nat) :
    StoreExtends σ (zipS σ self other).1 := by
  unfold zipS
  split
  · split
    · exact extends_alloc σ _
    · exact extends_alloc σ _
  · exact extends_alloc σ _
  · exact extends_refl σ

theorem containsS_extends (σ : Store α) (self : Nat)
    (eqf : Payload α → Payload α → Bool) (item : Payload α) :
    StoreExtends σ (containsS σ self eqf item).1 := by
  unfold containsS
  split <;> exact extends_refl σ

theorem is_someS_extends (σ : Store α) (self : Nat) :
    StoreExtends σ (is_someS σ self).1 := by
  unfold is_someS
  split <;> exact extends_refl σ

theorem is_nothingS_extends (σ : Store α) (self : Nat) :
    StoreExtends σ (is_nothingS σ self).1 := by
  unfold is_nothingS
  split <;> exact extends_refl σ

end PyStore

/-- Source: the `isinstance(t, OptionProtocol)` test performed by
`Some.flatten` — true exactly when the payload is itself an Option
instance. -/
def PyVal.isOptionInst : PyVal → Bool
  | .opt _ => true
  | _ => false

/-- C1: the claim states `Present(v).ok_or(err) == Success(v)`,
`Absent.ok_or(err) == Failure(err)`, and likewise for `ok_or_else`. The
code disagrees: the bodies of `Some.ok_or`, `Nothing.ok_or`,
`Some.ok_or_else` and `Nothing.ok_or_else` are all the `...` stub, so at
the failing input `Some(1).ok_or(0)` the call returns Python `None` — it
never produces a `Result` instance — even though the protocol docstring
("This maps Some(v) to Ok(v) and None to Err(err)") promises exactly the
claimed mapping. This theorem evaluates the code at the failing inputs. -/
theorem C1_ok_or_returns_none :
    MOption.ok_or (MOption.some' (1 : Int)) (0 : Int) = PyRet.pyNone ∧
    MOption.ok_or (MOption.nothing' : MOption Int) (0 : Int) = PyRet.pyNone ∧
    MOption.ok_or_else (MOption.some' (1 : Int)) (fun _ => (0 : Int)) =
      PyRet.pyNone ∧
    MOption.ok_or_else (MOption.nothing' : MOption Int)
      (fun _ => (0 : Int)) = PyRet.pyNone ∧
    ∀ r : RInst,
      MOption.ok_or (MOption.some' (1 : Int)) (0 : Int) ≠ PyRet.value r :=
  ⟨rfl, rfl, rfl, rfl, fun r h => PyRet.noConfusion h⟩

/-- C2: counterexample. The claim says two instances are equal iff they
are the same variant and, where a payload exists, payloads are equal. Two
distinct `Ok()` instances (object ids 0 and 1) are the same variant and
carry no payload, so the claim makes them equal; Python `==` on them is
identity (neither `Ok` nor `Err` defines `__eq__`) and returns `False`. -/
theorem C2_result_equality_counterexample :
    (RInst.mk RVariant.ok 0).variant = (RInst.mk RVariant.ok 1).variant ∧
    pyEqR (RInst.mk RVariant.ok 0) (RInst.mk RVariant.ok 1) = false := by
  decide

/-- C2 (amended): for the Optional family equality is structural exactly
as claimed — `Some(a) == Some(b)` iff `a == b` by the payload type's own
equality, `Nothing() == Nothing()`, and instances of different variants
are never equal. The `Ok`/`Err` classes carry no payload and define no
equality: their instances compare by object identity. -/
theorem C2_structural_equality {α : Type u} [BEq α] :
    (∀ a b : α,
      MOption.eqb (MOption.some' a) (MOption.some' b) = (a == b)) ∧
    MOption.eqb (MOption.nothing' : MOption α) MOption.nothing' = true ∧
    (∀ a : α, MOption.eqb (MOption.some' a) MOption.nothing' = false) ∧
    (∀ b : α, MOption.eqb MOption.nothing' (MOption.some' b) = false) ∧
    (∀ r s : RInst, pyEqR r s = (r.objId == s.objId)) :=
  ⟨fun _ _ => rfl, rfl, fun _ => rfl, fun _ => rfl, fun _ _ => rfl⟩

/-- C3: `expect` and `unwrap` fail exactly on `Nothing` — `expect(msg)`
raising `UnwrapError(msg)`, `unwrap` raising the fixed default message —
and on `Some(v)` both return `v`. No other operation can fail: the only
other combinator bodies that even invoke `unwrap` are `zip` and `flatten`,
and both always return a value. -/
theorem C3_only_unwrap_fails {α : Type u} :
    (∀ (v : α) (msg : String),
      MOption.expect (MOption.some' v) msg = Except.ok v) ∧
    (∀ msg : String,
      MOption.expect (MOption.nothing' : MOption α) msg =
        Except.error msg) ∧
    (∀ v : α, MOption.unwrap (MOption.some' v) = Except.ok v) ∧
    MOption.unwrap (MOption.nothing' : MOption α) =
      Except.error MOption.unwrapMsg ∧
    (∀ (o : MOption α) (msg : String),
      (∃ e, MOption.expect o msg = Except.error e) ↔
        o = MOption.nothing') ∧
    (∀ o other : MOption α, ∃ r, MOption.zip o other = Except.ok r) ∧
    (∀ d : DOption, ∃ r, DOption.flatten d = Except.ok r) := by
  refine ⟨fun v msg => rfl, fun msg => rfl, fun v => rfl, rfl, ?_, ?_, ?_⟩
  · intro o msg
    cases o with
    | some' v => simp [MOption.expect]
    | nothing' => simp [MOption.expect]
  · intro o other
    cases o with
    | some' v =>
        cases other with
        | some' w => exact ⟨MOption.some' (v, w), rfl⟩
        | nothing' => exact ⟨MOption.nothing', rfl⟩
    | nothing' => exact ⟨MOption.nothing', rfl⟩
  · intro d
    cases d with
    | someO v =>
        cases v with
        | int n => exact ⟨DOption.someO (PyVal.int n), rfl⟩
        | str s => exact ⟨DOption.someO (PyVal.str s), rfl⟩
        | pair a b => exact ⟨DOption.someO (PyVal.pair a b), rfl⟩
        | opt u => exact ⟨u, rfl⟩
    | nothingO => exact ⟨DOption.nothingO, rfl⟩

/-- C4: short-circuit non-interference — on the branch where the
caller-supplied function is never invoked, the result does not depend on
which function was supplied: `Nothing.map`, `Nothing.and_then`,
`Nothing.map_or_else` (in its `f` argument), `Some.or_else`,
`Some.unwrap_or_else` and `Some.ok_or_else` give the same result for any
two supplied functions. -/
theorem C4_short_circuit_noninterference {α : Type u} {β : Type v} :
    (∀ f g : α → β,
      MOption.map (MOption.nothing' : MOption α) f =
        MOption.map MOption.nothing' g) ∧
    (∀ f g : α → MOption β,
      MOption.and_then (MOption.nothing' : MOption α) f =
        MOption.and_then MOption.nothing' g) ∧
    (∀ (d : Unit → β) (f g : α → β),
      MOption.map_or_else (MOption.nothing' : MOption α) d f =
        MOption.map_or_else MOption.nothing' d g) ∧
    (∀ (v : α) (f g : Unit → MOption α),
      MOption.or_else (MOption.some' v) f =
        MOption.or_else (MOption.some' v) g) ∧
    (∀ (v : α) (f g : Unit → α),
      MOption.unwrap_or_else (MOption.some' v) f =
        MOption.unwrap_or_else (MOption.some' v) g) ∧
    (∀ (v : α) (f g : Unit → β),
      MOption.ok_or_else (MOption.some' v) f =
        MOption.ok_or_else (MOption.some' v) g) :=
  ⟨fun _ _ => rfl, fun _ _ => rfl, fun _ _ _ => rfl, fun _ _ _ => rfl,
   fun _ _ _ => rfl, fun _ _ _ => rfl⟩

/-- C5: `flatten` removes exactly one level of nesting —
`Some(Some(w)).flatten()` is `Some(w)` (for `w` itself possibly nested:
the triply nested value loses only its outer level), a `Some` whose
payload is not an Option instance is returned unchanged, and
`Nothing.flatten()` returns the receiver. -/
theorem C5_flatten_one_level :
    (∀ w : PyVal,
      DOption.flatten (DOption.someO (PyVal.opt (DOption.someO w))) =
        Except.ok (DOption.someO w)) ∧
    (∀ w : PyVal,
      DOption.flatten (DOption.someO (PyVal.opt (DOption.someO
          (PyVal.opt (DOption.someO w))))) =
        Except.ok (DOption.someO (PyVal.opt (DOption.someO w)))) ∧
    (∀ v : PyVal, v.isOptionInst = false →
      DOption.flatten (DOption.someO v) = Except.ok (DOption.someO v)) ∧
    DOption.flatten DOption.nothingO = Except.ok DOption.nothingO := by
  refine ⟨fun w => rfl, fun w => rfl, ?_, rfl⟩
  intro v h
  cases v with
  | int n => rfl
  | str s => rfl
  | pair a b => rfl
  | opt u => exact absurd h (by simp [PyVal.isOptionInst])

/-- C5 witness: the theorem applied at concrete inputs — a non-nested
payload (the integer 5) is returned unchanged, and one level of nesting
is removed. -/
theorem C5_flatten_one_level_witness :
    (PyVal.int 5).isOptionInst = false ∧
    DOption.flatten (DOption.someO (PyVal.int 5)) =
      Except.ok (DOption.someO (PyVal.int 5)) ∧
    DOption.flatten (DOption.someO (PyVal.opt (DOption.someO
        (PyVal.int 5)))) = Except.ok (DOption.someO (PyVal.int 5)) :=
  ⟨by decide, C5_flatten_one_level.2.2.1 (PyVal.int 5) (by decide),
   C5_flatten_one_level.1 (PyVal.int 5)⟩

/-- C6: `zip` — `Some(v).zip(Some(w))` is `Some((v, w))`,
`Some(v).zip(Nothing())` is `Nothing()`, and `Nothing().zip(o)` is
`Nothing()` for every operand `o`. -/
theorem C6_zip {α : Type u} :
    (∀ v w : α,
      MOption.zip (MOption.some' v) (MOption.some' w) =
        Except.ok (MOption.some' (v, w))) ∧
    (∀ v : α,
      MOption.zip (MOption.some' v) MOption.nothing' =
        Except.ok MOption.nothing') ∧
    (∀ o : MOption α,
      MOption.zip MOption.nothing' o = Except.ok MOption.nothing') :=
  ⟨fun _ _ => rfl, fun _ => rfl, fun _ => rfl⟩

/-- C7: the state predicates are total and mutually exclusive —
`Some(v).is_some` is true and `Some(v).is_nothing` false, symmetrically
for `Nothing()`; for `Result`, `is_ok` is true exactly on `Ok` and
`is_err` is its complement on every instance. -/
theorem C7_predicates_total_exclusive {α : Type u} :
    (∀ v : α,
      MOption.is_some (MOption.some' v) = true ∧
      MOption.is_nothing (MOption.some' v) = false) ∧
    MOption.is_some (MOption.nothing' : MOption α) = false ∧
    MOption.is_nothing (MOption.nothing' : MOption α) = true ∧
    (∀ o : MOption α, MOption.is_nothing o = !MOption.is_some o) ∧
    (∀ r : RInst,
      (r.is_ok = true ↔ r.variant = RVariant.ok) ∧
      r.is_err = !r.is_ok) := by
  refine ⟨fun v => ⟨rfl, rfl⟩, rfl, rfl, ?_, ?_⟩
  · intro o
    cases o with
    | some' v => rfl
    | nothing' => rfl
  · intro r
    obtain ⟨v, i⟩ := r
    cases v with
    | ok => exact ⟨by simp [RInst.is_ok], rfl⟩
    | err => exact ⟨by simp [RInst.is_ok], rfl⟩

/-- C8: no combinator mutates its receiver. In the store model the only
effect any code can have is allocating new cells (`frozen=True` forbids
field writes, on the combinators and on caller-supplied functions alike,
which is the extension hypothesis on the supplied functions); after any
of the seventeen operations of the Option surface, the receiver's cell is
unchanged — every transformation yields a new or unchanged instance. -/
theorem C8_no_mutation {α : Type u} (σ : Store α) (self other : Nat)
    (hself : self < σ.length)
    (f : PyStore.PFun α) (hf : ∀ σ' v, StoreExtends σ' (f σ' v).1)
    (g : PyStore.OFun α) (hg : ∀ σ' v, StoreExtends σ' (g σ' v).1)
    (p : PyStore.BFun α) (hp : ∀ σ' v, StoreExtends σ' (p σ' v).1)
    (t : PyStore.TFun α) (ht : ∀ σ', StoreExtends σ' (t σ').1)
    (u : PyStore.VFun α) (hu : ∀ σ', StoreExtends σ' (u σ').1)
    (d e item : Payload α) (eqf : Payload α → Payload α → Bool)
    (msg : String) :
    (PyStore.and_thenS σ self g).1[self]? = σ[self]? ∧
    (PyStore.expectS σ self msg).1[self]? = σ[self]? ∧
    (PyStore.unwrapS σ self).1[self]? = σ[self]? ∧
    (PyStore.filterS σ self p).1[self]? = σ[self]? ∧
    (PyStore.flattenS σ self).1[self]? = σ[self]? ∧
    (PyStore.mapS σ self f).1[self]? = σ[self]? ∧
    (PyStore.map_orS σ self d f).1[self]? = σ[self]? ∧
    (PyStore.map_or_elseS σ self u f).1[self]? = σ[self]? ∧
    (PyStore.ok_orS σ self e).1[self]? = σ[self]? ∧
    (PyStore.ok_or_elseS σ self u).1[self]? = σ[self]? ∧
    (PyStore.unwrap_orS σ self d).1[self]? = σ[self]? ∧
    (PyStore.unwrap_or_elseS σ self u).1[self]? = σ[self]? ∧
    (PyStore.or_elseS σ self t).1[self]? = σ[self]? ∧
    (PyStore.zipS σ self other).1[self]? = σ[self]? ∧
    (PyStore.containsS σ self eqf item).1[self]? = σ[self]? ∧
    (PyStore.is_someS σ self).1[self]? = σ[self]? ∧
    (PyStore.is_nothingS σ self).1[self]? = σ[self]? :=
  ⟨PyStore.extends_get (PyStore.and_thenS_extends σ self g hg) hself,
   PyStore.extends_get (PyStore.expectS_extends σ self msg) hself,
   PyStore.extends_get (PyStore.unwrapS_extends σ self) hself,
   PyStore.extends_get (PyStore.filterS_extends σ self p hp) hself,
   PyStore.extends_get (PyStore.flattenS_extends σ self) hself,
   PyStore.extends_get (PyStore.mapS_extends σ self f hf) hself,
   PyStore.extends_get (PyStore.map_orS_extends σ self d f hf) hself,
   PyStore.extends_get
     (PyStore.map_or_elseS_extends σ self u f hf hu) hself,
   PyStore.extends_get (PyStore.ok_orS_extends σ self e) hself,
   PyStore.extends_get (PyStore.ok_or_elseS_extends σ self u) hself,
   PyStore.extends_get (PyStore.unwrap_orS_extends σ self d) hself,
   PyStore.extends_get
     (PyStore.unwrap_or_elseS_extends σ self u hu) hself,
   PyStore.extends_get (PyStore.or_elseS_extends σ self t ht) hself,
   PyStore.extends_get (PyStore.zipS_extends σ self other) hself,
   PyStore.extends_get
     (PyStore.containsS_extends σ self eqf item) hself,
   PyStore.extends_get (PyStore.is_someS_extends σ self) hself,
   PyStore.extends_get (PyStore.is_nothingS_extends σ self) hself⟩

/-- C8 witness: the theorem applied at a concrete one-object store, with
identity-shaped caller functions, showing its hypotheses are satisfiable:
the receiver's cell after `map` is the cell before. -/
theorem C8_no_mutation_witness :
    0 < ([OptObj.nothingObj] : Store Nat).length ∧
    (PyStore.mapS ([OptObj.nothingObj] : Store Nat) 0
        (fun σ' v => (σ', v))).1[0]? =
      ([OptObj.nothingObj] : Store Nat)[0]? :=
  ⟨by decide,
   (C8_no_mutation ([OptObj.nothingObj] : Store Nat) 0 0 (by decide)
      (fun σ' v => (σ', v)) (fun σ' _ => PyStore.extends_refl σ')
      (fun σ' _ => (σ', 0)) (fun σ' _ => PyStore.extends_refl σ')
      (fun σ' _ => (σ', true)) (fun σ' _ => PyStore.extends_refl σ')
      (fun σ' => (σ', 0)) (fun σ' => PyStore.extends_refl σ')
      (fun σ' => (σ', Payload.raw 0)) (fun σ' => PyStore.extends_refl σ')
      (Payload.raw 0) (Payload.raw 0) (Payload.raw 0)
      (fun _ _ => true) MOption.unwrapMsg).2.2.2.2.2.1⟩

/-- C9: `unwrap` is definitionally `expect` applied to the fixed string
of `OptionProtocol.unwrap`; on `Some(v)` it returns `v`, and on
`Nothing()` it raises the invalid-unwrap error carrying exactly that
message text. -/
theorem C9_unwrap_is_expect_fixed {α : Type u} :
    (∀ o : MOption α, MOption.unwrap o = MOption.expect o
      MOption.unwrapMsg) ∧
    MOption.unwrapMsg = "called `Option.unwrap()` on a `Nothing` value" ∧
    (∀ v : α, MOption.unwrap (MOption.some' v) = Except.ok v) ∧
    MOption.unwrap (MOption.nothing' : MOption α) =
      Except.error MOption.unwrapMsg :=
  ⟨fun _ => rfl, rfl, fun _ => rfl, rfl⟩

/-- C10: the `Err` of `src/oxidize/types_.py` is behaviorally equal, on
the specified `Result` surface, to the `Err` of `src/rutils/option.py`:
every instance of either returns `is_ok == False` and `is_err == True`,
the oxidize version defining `is_err` as the negation of its `is_ok`. -/
theorem C10_oxidize_err_equivalence {T : Type u} {E : Type v} :
    (∀ (x : OErr T E) (n : Nat),
      x.is_ok = (RInst.mk RVariant.err n).is_ok ∧
      x.is_err = (RInst.mk RVariant.err n).is_err) ∧
    (∀ x : OErr T E,
      x.is_ok = false ∧ x.is_err = true ∧ x.is_err = !x.is_ok) ∧
    (∀ n : Nat, (RInst.mk RVariant.err n).is_ok = false ∧
      (RInst.mk RVariant.err n).is_err = true) :=
  ⟨fun _ _ => ⟨rfl, rfl⟩, fun _ => ⟨rfl, rfl, rfl⟩, fun _ => ⟨rfl, rfl⟩⟩
